import Mathlib

/-!
# Verification of the PSP serial stub (`src/PspSerialStub/main.c`)

A shallow embedding of the stub's data model and operations: the x86 and SMN
mapping-window allocators, the PDU framer and checksum, the receive state
machine, the session-control functions and the dispatch loop.  Machine
integers are modelled as `Nat` with explicit `% 2^32` (resp. `% 2^64`) where
the C code performs fixed-width arithmetic.  Hardware accesses (UART bytes,
MMIO loads/stores, slot-control registers) are modelled as oracle parameters
and effect logs.  Numeric constants that live in headers outside the
repository snapshot (magic values, error codes, the tag enumeration) are
modelled from the specification and marked as such.
-/

/-! ## Fixed-width arithmetic helpers -/

/-- Addition of two unsigned 32-bit quantities (wraps modulo 2^32). -/
def uadd32 (a b : Nat) : Nat := (a + b) % 4294967296

/-- Subtraction of unsigned 32-bit quantities, wrap-safe (`a - b` in uint32). -/
def usub32 (a b : Nat) : Nat := (a % 4294967296 + 4294967296 - b % 4294967296) % 4294967296

/-- Little-endian byte serialization: `leBytes n v` is the `n` low-order
bytes of `v`, least significant first (how the C structs lie in memory). -/
def leBytes : Nat → Nat → List Nat
  | 0, _ => []
  | n + 1, v => v % 256 :: leBytes n (v / 256)

/-- Value of a little-endian byte list (first byte is least significant). -/
def leVal : List Nat → Nat
  | [] => 0
  | b :: bs => b + 256 * leVal bs

/-- Read an `n`-byte little-endian field at byte offset `i` of a buffer,
as the C code does when it casts `&abPdu[0]` to a struct pointer. -/
def leAt (n : Nat) (bs : List Nat) (i : Nat) : Nat := leVal ((bs.drop i).take n)

/-- Byte bytes of an `int32_t` value (two's complement, little endian). -/
def i32Bytes (v : Int) : List Nat := leBytes 4 (v % 4294967296).toNat

/-- Running unsigned 32-bit sum of a byte list, as the C checksum loops
accumulate it (`uint32_t uChkSum`; each addition wraps modulo 2^32). -/
def byteSum (bs : List Nat) : Nat := bs.foldl uadd32 0

/-! ## Protocol constants

The PDU magic values, error codes and the request/response/notification tag
enumeration come from headers (`psp-serial-stub.h`, `err.h`) that are not
part of the repository snapshot under `src/`. -/

/-- Modelled from the spec: EXT-to-SCP start magic (exact value not in src;
the four magics are pairwise distinct, which is all the code relies on). -/
def PSP_SERIAL_EXT_2_PSP_PDU_START_MAGIC : Nat := 0x45325053

/-- Modelled from the spec: EXT-to-SCP end magic. -/
def PSP_SERIAL_EXT_2_PSP_PDU_END_MAGIC : Nat := 0x45325045

/-- Modelled from the spec: SCP-to-EXT start magic. -/
def PSP_SERIAL_PSP_2_EXT_PDU_START_MAGIC : Nat := 0x50324553

/-- Modelled from the spec: SCP-to-EXT end magic. -/
def PSP_SERIAL_PSP_2_EXT_PDU_END_MAGIC : Nat := 0x50324545

/-- Success status code (`INF_SUCCESS` is zero). -/
def INF_SUCCESS : Int := 0

/-- Modelled from the spec: informational try-again status, nonzero and
distinct from every error code (`err.h` is not in src). -/
def INF_TRY_AGAIN : Int := 26

/-- Modelled from the spec: invalid-parameter error code, negative. -/
def ERR_INVALID_PARAMETER : Int := -5

/-- Modelled from the spec: invalid-state error code, negative. -/
def ERR_INVALID_STATE : Int := -6

/-- Indefinite wait constant (`#define PSP_SERIAL_STUB_INDEFINITE_WAIT 0xffffffff`). -/
def PSP_SERIAL_STUB_INDEFINITE_WAIT : Nat := 0xffffffff

/-- Sentinel for an unused x86 mapping slot (`NIL_X86PADDR`, all-ones u64;
the header defining it is not in src, modelled from the spec's "none" value). -/
def NIL_X86PADDR : Nat := 18446744073709551615

/-! Modelled from the spec: the tag enumeration (`PSPSERIALPDURRNID`).  The
spec says request values are contiguous (`CONNECT` through `PSP_X86_MMIO_WRITE`)
and each request has a distinct matching response constant; notifications
follow.  Concrete values are chosen to satisfy exactly that layout. -/

def PSPSERIALPDURRNID_INVALID : Nat := 0
def PSPSERIALPDURRNID_REQUEST_CONNECT : Nat := 1
def PSPSERIALPDURRNID_REQUEST_PSP_MEM_READ : Nat := 2
def PSPSERIALPDURRNID_REQUEST_PSP_MEM_WRITE : Nat := 3
def PSPSERIALPDURRNID_REQUEST_PSP_MMIO_READ : Nat := 4
def PSPSERIALPDURRNID_REQUEST_PSP_MMIO_WRITE : Nat := 5
def PSPSERIALPDURRNID_REQUEST_PSP_SMN_READ : Nat := 6
def PSPSERIALPDURRNID_REQUEST_PSP_SMN_WRITE : Nat := 7
def PSPSERIALPDURRNID_REQUEST_PSP_X86_MEM_READ : Nat := 8
def PSPSERIALPDURRNID_REQUEST_PSP_X86_MEM_WRITE : Nat := 9
def PSPSERIALPDURRNID_REQUEST_PSP_X86_MMIO_READ : Nat := 10
def PSPSERIALPDURRNID_REQUEST_PSP_X86_MMIO_WRITE : Nat := 11
def PSPSERIALPDURRNID_REQUEST_FIRST : Nat := 1
def PSPSERIALPDURRNID_REQUEST_INVALID_FIRST : Nat := 12
def PSPSERIALPDURRNID_RESPONSE_CONNECT : Nat := 12
def PSPSERIALPDURRNID_RESPONSE_PSP_MEM_READ : Nat := 13
def PSPSERIALPDURRNID_RESPONSE_PSP_MEM_WRITE : Nat := 14
def PSPSERIALPDURRNID_RESPONSE_PSP_MMIO_READ : Nat := 15
def PSPSERIALPDURRNID_RESPONSE_PSP_MMIO_WRITE : Nat := 16
def PSPSERIALPDURRNID_RESPONSE_PSP_SMN_READ : Nat := 17
def PSPSERIALPDURRNID_RESPONSE_PSP_SMN_WRITE : Nat := 18
def PSPSERIALPDURRNID_RESPONSE_PSP_X86_MEM_READ : Nat := 19
def PSPSERIALPDURRNID_RESPONSE_PSP_X86_MEM_WRITE : Nat := 20
def PSPSERIALPDURRNID_RESPONSE_PSP_X86_MMIO_READ : Nat := 21
def PSPSERIALPDURRNID_RESPONSE_PSP_X86_MMIO_WRITE : Nat := 22
def PSPSERIALPDURRNID_NOTIFICATION_BEACON : Nat := 23
def PSPSERIALPDURRNID_NOTIFICATION_LOG_MSG : Nat := 24

/-! ## Data model (`PSPSTUBSTATE` and friends) -/

/-- An x86 memory mapping slot (`PSPX86MAPPING`). -/
structure PSPX86MAPPING where
  PhysX86AddrBase : Nat
  uMemType : Nat
  cRefs : Nat
  deriving Repr, DecidableEq

/-- An SMN mapping slot (`PSPSMNMAPPING`). -/
structure PSPSMNMAPPING where
  SmnAddrBase : Nat
  cRefs : Nat
  deriving Repr, DecidableEq

/-- PDU receive states (`PSPSERIALPDURECVSTATE`; the 32-bit-hack member is a
C enum-width artifact with no semantics and is omitted). -/
inductive PSPSERIALPDURECVSTATE where
  | INVALID
  | HDR
  | PAYLOAD
  | FOOTER
  deriving Repr, DecidableEq

/-- A PDU handed to the UART by `pspStubPduSend`: the header fields it
populated, the payload, and the checksum written into the footer.  The list
of these in the state models the outgoing byte stream. -/
structure SentPdu where
  rcReq : Int
  idCcd : Nat
  enmRrnId : Nat
  cPdus : Nat
  tsMillies : Nat
  payload : List Nat
  chkSum : Nat
  deriving Repr, DecidableEq

/-- A logged memory/MMIO store performed by a request handler. -/
structure MemWrite where
  addr : Nat
  bytes : List Nat
  deriving Repr, DecidableEq

/-- The global stub state (`PSPSTUBSTATE`).  `abPdu` holds the bytes received
so far for the PDU being parsed (the C array's prefix `[0, offPduRecv)`);
`regWrites` logs stores to x86 slot-control registers; `smnCtrlRegs` models
the sixteen 32-bit SMN slot-control registers at `0x03220000` (read-modify-
written by the SMN allocator); `sendLog` models the outgoing PDU stream;
`msNow` is the millisecond clock observed by `pspStubGetMillies`. -/
structure PSPSTUBSTATE where
  cCcds : Nat
  fConnected : Bool
  cBeaconsSent : Nat
  cPdusSent : Nat
  cPduRecvNext : Nat
  enmPduRecvState : PSPSERIALPDURECVSTATE
  cbPduRecvLeft : Nat
  offPduRecv : Nat
  abPdu : List Nat
  aX86MapSlots : List PSPX86MAPPING
  aSmnMapSlots : List PSPSMNMAPPING
  smnCtrlRegs : List Nat
  regWrites : List (Nat × Nat)
  sendLog : List SentPdu
  memWrites : List MemWrite
  msNow : Nat
  deriving Repr, DecidableEq

/-! ## x86 mapping allocator (`pspStubX86PhysMap` / `pspStubX86PhysUnmapByPtr`) -/

/-- Slot-search predicate of the loop in `pspStubX86PhysMap` (lines 192-203):
a slot is a candidate if it is empty (sentinel base and zero refcount) or
already maps the same 64 MiB base with the same memory type. -/
def x86SlotMatch (base memType : Nat) (s : PSPX86MAPPING) : Bool :=
  (s.PhysX86AddrBase == NIL_X86PADDR && s.cRefs == 0) ||
  (s.PhysX86AddrBase == base && s.uMemType == memType)

/-- First-match linear probe over the slot table, returning the index. -/
def x86FindSlot (base memType : Nat) : List PSPX86MAPPING → Option Nat
  | [] => none
  | s :: rest =>
    if x86SlotMatch base memType s then some 0
    else (x86FindSlot base memType rest).map (· + 1)

/-- The six control-register stores programming slot `idxSlot` on first
allocation (lines 214-220): four words at `0x03230000 + idx*16`, the mask
register and the attribute register.  Stores truncate to 32 bits. -/
def x86SlotProgramWrites (idxSlot base memType : Nat) : List (Nat × Nat) :=
  [ (0x03230000 + idxSlot * 16, ((base / 4294967296) * 64 + (base / 67108864) % 64) % 4294967296),
    (0x03230000 + idxSlot * 16 + 4, 0x12),
    (0x03230000 + idxSlot * 16 + 8, memType),
    (0x03230000 + idxSlot * 16 + 12, memType),
    (0x032303e0 + idxSlot * 4, 0xffffffff),
    (0x032304d8 + idxSlot * 4, 0xc0000000) ]

/-- The six stores clearing slot `idxSlot` when its refcount reaches zero
(`pspStubX86PhysUnmapByPtr`, lines 262-268). -/
def x86SlotClearWrites (idxSlot : Nat) : List (Nat × Nat) :=
  [ (0x03230000 + idxSlot * 16, 0),
    (0x03230000 + idxSlot * 16 + 4, 0),
    (0x03230000 + idxSlot * 16 + 8, 0),
    (0x03230000 + idxSlot * 16 + 12, 0),
    (0x032303e0 + idxSlot * 4, 0xffffffff),
    (0x032304d8 + idxSlot * 4, 0) ]

/-- Embedding of `pspStubX86PhysMap` (lines 181-230).  Splits the address into a 64 MiB
base and offset, probes the slot table, programs the control registers when
the winning slot is empty, bumps the refcount and returns the local pointer
`0x04000000 + idx * 64MiB + offset`.  Returns `ERR_INVALID_STATE` when no
slot is available. -/
def pspStubX86PhysMap (st : PSPSTUBSTATE) (PhysX86Addr : Nat) (fMmio : Bool) :
    PSPSTUBSTATE × Int × Option Nat :=
  let uMemType := if fMmio then 6 else 4
  let PhysX86AddrBase := PhysX86Addr - PhysX86Addr % 67108864
  let offStart := PhysX86Addr - PhysX86AddrBase
  match x86FindSlot PhysX86AddrBase uMemType st.aX86MapSlots with
  | none => (st, ERR_INVALID_STATE, none)
  | some idxSlot =>
    let s := (st.aX86MapSlots.drop idxSlot).headD ⟨NIL_X86PADDR, 0, 0⟩
    let st1 :=
      if s.PhysX86AddrBase = NIL_X86PADDR then
        { st with
          aX86MapSlots := st.aX86MapSlots.set idxSlot
            { s with uMemType := uMemType, PhysX86AddrBase := PhysX86AddrBase },
          regWrites := st.regWrites ++ x86SlotProgramWrites idxSlot PhysX86AddrBase uMemType }
      else st
    let s1 := (st1.aX86MapSlots.drop idxSlot).headD ⟨NIL_X86PADDR, 0, 0⟩
    let st2 := { st1 with aX86MapSlots := st1.aX86MapSlots.set idxSlot { s1 with cRefs := s1.cRefs + 1 } }
    (st2, INF_SUCCESS, some (0x04000000 + idxSlot * 67108864 + offStart))

/-- Embedding of `pspStubX86PhysUnmapByPtr` (lines 240-278).  Recovers the slot index from
the pointer (32-bit `uintptr_t` arithmetic), validates it, decrements the
refcount and clears the slot and its control registers on the last release. -/
def pspStubX86PhysUnmapByPtr (st : PSPSTUBSTATE) (pv : Nat) : PSPSTUBSTATE × Int :=
  let pvMod := pv % 4294967296
  let alignedBase := pvMod - pvMod % 67108864
  let PspAddrMapBase := (alignedBase + 4294967296 - 0x04000000) % 4294967296
  let idxSlot := PspAddrMapBase / 67108864
  if idxSlot < 15 ∧ PspAddrMapBase % 67108864 = 0 then
    let s := (st.aX86MapSlots.drop idxSlot).headD ⟨NIL_X86PADDR, 0, 0⟩
    if s.cRefs > 0 then
      if s.cRefs - 1 = 0 then
        ({ st with
           aX86MapSlots := st.aX86MapSlots.set idxSlot ⟨NIL_X86PADDR, 0, 0⟩,
           regWrites := st.regWrites ++ x86SlotClearWrites idxSlot }, INF_SUCCESS)
      else
        ({ st with aX86MapSlots := st.aX86MapSlots.set idxSlot { s with cRefs := s.cRefs - 1 } },
         INF_SUCCESS)
    else (st, ERR_INVALID_PARAMETER)
  else (st, ERR_INVALID_PARAMETER)

/-! ## SMN mapping allocator (`pspStubSmnPhysMap` / `pspStubSmnUnmapByPtr`) -/

/-- Slot-search predicate of the loop in `pspStubSmnPhysMap` (lines 299-309):
empty slot (base 0, refcount 0) or a slot already holding the same base
(regardless of refcount). -/
def smnSlotMatch (base : Nat) (s : PSPSMNMAPPING) : Bool :=
  (s.SmnAddrBase == 0 && s.cRefs == 0) || s.SmnAddrBase == base

/-- First-match linear probe over the SMN slot table. -/
def smnFindSlot (base : Nat) : List PSPSMNMAPPING → Option Nat
  | [] => none
  | s :: rest =>
    if smnSlotMatch base s then some 0
    else (smnFindSlot base rest).map (· + 1)

/-- Embedding of `pspStubSmnPhysMap` (lines 289-335).  1 MiB-granular; paired slots share
one control register (`0x03220000 + (idx/2)*4`), read-modify-written: odd
slots OR the value into the high 16 bits, even slots into the low half. -/
def pspStubSmnPhysMap (st : PSPSTUBSTATE) (SmnAddr : Nat) :
    PSPSTUBSTATE × Int × Option Nat :=
  let SmnAddrBase := SmnAddr - SmnAddr % 1048576
  let offStart := SmnAddr - SmnAddrBase
  match smnFindSlot SmnAddrBase st.aSmnMapSlots with
  | none => (st, ERR_INVALID_STATE, none)
  | some idxSlot =>
    let s := (st.aSmnMapSlots.drop idxSlot).headD ⟨0, 0⟩
    let st1 :=
      if s.SmnAddrBase = 0 then
        let reg := st.smnCtrlRegs.getD (idxSlot / 2) 0
        let regNew :=
          if idxSlot % 2 = 1 then reg ||| (((SmnAddrBase / 1048576) <<< 16) % 4294967296)
          else reg ||| (SmnAddrBase / 1048576)
        { st with
          aSmnMapSlots := st.aSmnMapSlots.set idxSlot { s with SmnAddrBase := SmnAddrBase },
          smnCtrlRegs := st.smnCtrlRegs.set (idxSlot / 2) regNew }
      else st
    let s1 := (st1.aSmnMapSlots.drop idxSlot).headD ⟨0, 0⟩
    let st2 := { st1 with aSmnMapSlots := st1.aSmnMapSlots.set idxSlot { s1 with cRefs := s1.cRefs + 1 } }
    (st2, INF_SUCCESS, some (0x01000000 + idxSlot * 1048576 + offStart))

/-- Embedding of `pspStubSmnUnmapByPtr` (lines 345-382). -/
def pspStubSmnUnmapByPtr (st : PSPSTUBSTATE) (pv : Nat) : PSPSTUBSTATE × Int :=
  let pvMod := pv % 4294967296
  let alignedBase := pvMod - pvMod % 1048576
  let PspAddrMapBase := (alignedBase + 4294967296 - 0x01000000) % 4294967296
  let idxSlot := PspAddrMapBase / 1048576
  if idxSlot < 32 ∧ PspAddrMapBase % 1048576 = 0 then
    let s := (st.aSmnMapSlots.drop idxSlot).headD ⟨0, 0⟩
    if s.cRefs > 0 then
      if s.cRefs - 1 = 0 then
        let reg := st.smnCtrlRegs.getD (idxSlot / 2) 0
        let regNew := if idxSlot % 2 = 1 then reg % 65536 else reg / 65536 * 65536
        ({ st with
           aSmnMapSlots := st.aSmnMapSlots.set idxSlot ⟨0, 0⟩,
           smnCtrlRegs := st.smnCtrlRegs.set (idxSlot / 2) regNew }, INF_SUCCESS)
      else
        ({ st with aSmnMapSlots := st.aSmnMapSlots.set idxSlot { s with cRefs := s.cRefs - 1 } },
         INF_SUCCESS)
    else (st, ERR_INVALID_PARAMETER)
  else (st, ERR_INVALID_PARAMETER)

/-! ## PDU framer (`pspStubPduSend`) -/

/-- The header bytes covered by the checksum: the `u.ab` union view of the
fields following the start magic (`cbPdu`, `cPdus`, `enmRrnId`, `idCcd`,
`rcReq`, `tsMillies`; 20 bytes, little endian).  Modelled from the spec's
wire layout, since `PSPSERIALPDUHDR` lives in a header outside src. -/
def pduHdrFieldBytes (cbPdu cPdus enmRrnId idCcd : Nat) (rcReq : Int) (tsMillies : Nat) : List Nat :=
  leBytes 4 cbPdu ++ leBytes 4 cPdus ++ leBytes 2 enmRrnId ++ leBytes 2 idCcd ++
    i32Bytes rcReq ++ leBytes 4 tsMillies

/-- Footer checksum as computed by `pspStubPduSend` (line 536):
`(0xffffffff - sum) + 1` in unsigned 32-bit arithmetic. -/
def pduChkSum (bs : List Nat) : Nat := (0xffffffff - byteSum bs + 1) % 4294967296

/-- Embedding of `pspStubPduSend` (lines 514-547).  Pre-increments `cPdusSent` into the
header counter, stamps the current milliseconds, computes the checksum over
the header field bytes and the payload, and hands header/payload/footer to
the UART.  The UART write outcome is the oracle parameter `uartRc`
(`PSPUartWrite` is an external collaborator); the attempted PDU is logged. -/
def pspStubPduSend (st : PSPSTUBSTATE) (rcReq : Int) (idCcd : Nat) (enmPduRrnId : Nat)
    (payload : List Nat) (uartRc : Int) : PSPSTUBSTATE × Int :=
  let cPdus := uadd32 st.cPdusSent 1
  let chk := pduChkSum (pduHdrFieldBytes payload.length cPdus enmPduRrnId idCcd rcReq st.msNow ++ payload)
  ({ st with
     cPdusSent := cPdus,
     sendLog := st.sendLog ++
       [⟨rcReq, idCcd, enmPduRrnId, cPdus, st.msNow, payload, chk⟩] }, uartRc)

/-! ## PDU parser (receive state machine) -/

/-- Embedding of `pspStubPduRecvReset` (lines 556-561): back to the header state with
`sizeof(PSPSERIALPDUHDR)` = 24 bytes left and offset 0. -/
def pspStubPduRecvReset (st : PSPSTUBSTATE) : PSPSTUBSTATE :=
  { st with enmPduRecvState := .HDR, cbPduRecvLeft := 24, offPduRecv := 0, abPdu := [] }

/-- Embedding of `pspStubPduHdrValidate` (lines 571-586), reading the header fields out of
the receive buffer: start magic at offset 0, payload length at 4, counter at
8, tag at 12, unit id at 14. -/
def pspStubPduHdrValidate (st : PSPSTUBSTATE) (buf : List Nat) : Int :=
  if leAt 4 buf 0 ≠ PSP_SERIAL_EXT_2_PSP_PDU_START_MAGIC then -1
  else if leAt 4 buf 4 > 4096 - 24 - 8 then -1
  else if leAt 2 buf 12 < PSPSERIALPDURRNID_REQUEST_FIRST ∨
          leAt 2 buf 12 ≥ PSPSERIALPDURRNID_REQUEST_INVALID_FIRST then -1
  else if leAt 4 buf 8 ≠ st.cPduRecvNext then -1
  else if leAt 2 buf 14 ≥ st.cCcds then -1
  else 0

/-- Embedding of `pspStubPduValidate` (lines 596-614): checksum over the header field
bytes (`u.ab`, buffer bytes 4..24) and the payload, then the footer checksum
must cancel the sum modulo 2^32 and the end magic must match. -/
def pspStubPduValidate (buf : List Nat) : Int :=
  let cbPdu := leAt 4 buf 4
  let uChkSum := byteSum ((buf.drop 4).take 20 ++ (buf.drop 24).take cbPdu)
  if (uChkSum + leAt 4 buf (24 + cbPdu)) % 4294967296 ≠ 0 ∨
     leAt 4 buf (28 + cbPdu) ≠ PSP_SERIAL_EXT_2_PSP_PDU_END_MAGIC then -1
  else 0

/-- Embedding of `pspStubPduRecvAdvance` (lines 624-687): process the completed state and
advance.  Returns the new state, the status code and the completed PDU's
bytes when a full PDU passed validation. -/
def pspStubPduRecvAdvance (st : PSPSTUBSTATE) : PSPSTUBSTATE × Int × Option (List Nat) :=
  match st.enmPduRecvState with
  | .HDR =>
    if pspStubPduHdrValidate st st.abPdu = 0 then
      if leAt 4 st.abPdu 4 ≠ 0 then
        ({ st with enmPduRecvState := .PAYLOAD, cbPduRecvLeft := leAt 4 st.abPdu 4 },
         INF_SUCCESS, none)
      else
        ({ st with enmPduRecvState := .FOOTER, cbPduRecvLeft := 8 }, INF_SUCCESS, none)
    else
      (pspStubPduRecvReset st, INF_SUCCESS, none)
  | .PAYLOAD =>
    ({ st with enmPduRecvState := .FOOTER, cbPduRecvLeft := 8 }, INF_SUCCESS, none)
  | .FOOTER =>
    let rc := pspStubPduValidate st.abPdu
    if rc = 0 then
      (pspStubPduRecvReset { st with cPduRecvNext := uadd32 st.cPduRecvNext 1 },
       INF_SUCCESS, some st.abPdu)
    else
      (pspStubPduRecvReset st, rc, none)
  | .INVALID => (st, ERR_INVALID_STATE, none)

/-! ## Receive loop (`pspStubPduRecv`) -/

/-- One poll of the UART inside the receive loop, as observed by the code:
how many bytes `PSPUartGetDataAvail` reports, the bytes `PSPUartRead`
delivers, its status code, and the value `pspStubGetMillies` returns at the
loop-condition check following this iteration. -/
structure RecvPoll where
  cbAvail : Nat
  bytes : List Nat
  rcRead : Int
  msNow : Nat
  deriving Repr, DecidableEq

/-- The do-while loop of `pspStubPduRecv` (lines 703-730), driven by the
list of UART polls.  `rc` is the running status (`INF_SUCCESS` on entry).
A complete valid PDU breaks out of the loop (line 724); otherwise the loop
continues exactly while `(!rc && millies() - tsStartMs < cMillies) ||
cMillies == PSP_SERIAL_STUB_INDEFINITE_WAIT` — the source's operator
precedence, `&&` binding tighter than `||`.  An exhausted poll list ends
the loop with the current status. -/
def pspStubPduRecvLoop (tsStartMs cMillies : Nat) :
    PSPSTUBSTATE → Int → List RecvPoll → PSPSTUBSTATE × Int × Option (List Nat)
  | st, rc, [] => (st, rc, none)
  | st, rc, p :: rest =>
    let step : PSPSTUBSTATE × Int × Option (List Nat) :=
      if p.cbAvail ≠ 0 then
        let cbThisRecv := min p.cbAvail st.cbPduRecvLeft
        if p.rcRead = 0 then
          let st1 := { st with
            abPdu := st.abPdu ++ p.bytes.take cbThisRecv,
            offPduRecv := st.offPduRecv + cbThisRecv,
            cbPduRecvLeft := st.cbPduRecvLeft - cbThisRecv }
          if st1.cbPduRecvLeft = 0 then pspStubPduRecvAdvance st1
          else (st1, INF_SUCCESS, none)
        else (st, p.rcRead, none)
      else (st, rc, none)
    let st1 := step.1
    let rc1 := step.2.1
    let pdu := step.2.2
    if rc1 = 0 ∧ pdu ≠ none then (st1, rc1, pdu)
    else if (rc1 = 0 ∧ usub32 p.msNow tsStartMs < cMillies) ∨
            cMillies = PSP_SERIAL_STUB_INDEFINITE_WAIT then
      pspStubPduRecvLoop tsStartMs cMillies st1 rc1 rest
    else (st1, rc1, none)

/-- Embedding of `pspStubPduRecv` (lines 698-736).  `tsStartMs` is the milliseconds value
read on entry and `msFinal` the one read by the check after the loop, which
the source writes as `tsStartMs + pspStubGetMillies(pThis) >= cMillies`
(32-bit sum, not a wrap-safe elapsed-time subtraction): when that holds, the
status is overwritten with `INF_TRY_AGAIN` even if a PDU was received. -/
def pspStubPduRecv (st : PSPSTUBSTATE) (polls : List RecvPoll)
    (tsStartMs msFinal cMillies : Nat) : PSPSTUBSTATE × Int × Option (List Nat) :=
  let r := pspStubPduRecvLoop tsStartMs cMillies st INF_SUCCESS polls
  if uadd32 tsStartMs msFinal ≥ cMillies then (r.1, INF_TRY_AGAIN, r.2.2)
  else r

/-! ## Session control -/

/-- Modelled from the spec: the scratch-buffer address advertised in the
connect response (the concrete link address of `abScratch` is a link-time
artifact outside the source). -/
def PSP_STUB_SCRATCH_ADDR : Nat := 0x60000

/-- The `PSPSERIALCONNECTRESP` payload built in `pspStubCheckConnection`
(lines 756-763): max PDU size 4096, scratch size 16384, scratch address,
one socket, one CCD per socket, padding zero.  Field widths modelled from
the spec (the struct lives in a header outside src). -/
def pspStubConnectRespPayload : List Nat :=
  leBytes 4 4096 ++ leBytes 4 16384 ++ leBytes 4 PSP_STUB_SCRATCH_ADDR ++
    leBytes 4 1 ++ leBytes 4 1 ++ leBytes 4 0

/-- Embedding of `pspStubCheckConnection` (lines 746-777), given the outcome of its
`pspStubPduRecv` call (status and completed PDU bytes) and the UART outcome
for the response send.  On a connect request it resets `cPdusSent` to zero,
sends the connect response and sets `fConnected` on send success.  Any other
outcome leaves the state alone.  The function returns `INF_SUCCESS`
unconditionally (line 776).  (When the C code reaches `rc == INF_SUCCESS`
with no completed PDU it would dereference a stale pointer; the model treats
that case as the no-op branch.) -/
def pspStubCheckConnection (st : PSPSTUBSTATE) (recvRc : Int)
    (pdu : Option (List Nat)) (uartRc : Int) : PSPSTUBSTATE × Int :=
  if recvRc = INF_SUCCESS then
    match pdu with
    | some bs =>
      if leAt 2 bs 12 = PSPSERIALPDURRNID_REQUEST_CONNECT then
        let st1 := { st with cPdusSent := 0 }
        let sr := pspStubPduSend st1 INF_SUCCESS 0 PSPSERIALPDURRNID_RESPONSE_CONNECT
          pspStubConnectRespPayload uartRc
        if sr.2 = 0 then ({ sr.1 with fConnected := true }, INF_SUCCESS)
        else (sr.1, INF_SUCCESS)
      else (st, INF_SUCCESS)
    | none => (st, INF_SUCCESS)
  else (st, INF_SUCCESS)

/-! ## Address-space proxies (request handlers)

Request payload layout modelled from the spec (the request structs live in a
header outside src): a u64 target address at offset 0, a u32 transfer length
at offset 8, write data from offset 12.  Memory loads are served by the
oracle `mem : Nat → Nat` (byte at an address); stores are logged. -/

/-- Bytes delivered by a read of `cb` bytes at `addr` (bulk copy, or the
byte image of the single width-`cb` access `pspStubMmioAccess` performs). -/
def memReadBytes (mem : Nat → Nat) (addr cb : Nat) : List Nat :=
  (List.range cb).map (fun i => mem (addr + i) % 256)

/-- Embedding of `pspStubPduProcessPspMemXfer` (lines 789-816): bulk SRAM copy, no width
constraint; responds with the PSP_MEM read/write response tags. -/
def pspStubPduProcessPspMemXfer (st : PSPSTUBSTATE) (mem : Nat → Nat)
    (payload : List Nat) (fWrite : Bool) (uartRc : Int) : PSPSTUBSTATE × Int :=
  if payload.length < 12 then (st, ERR_INVALID_PARAMETER)
  else
    let addr := leAt 8 payload 0
    let cbXfer := leAt 4 payload 8
    if fWrite then
      let st1 := { st with memWrites := st.memWrites ++ [⟨addr, (payload.drop 12).take cbXfer⟩] }
      pspStubPduSend st1 INF_SUCCESS 0 PSPSERIALPDURRNID_RESPONSE_PSP_MEM_WRITE [] uartRc
    else
      pspStubPduSend st INF_SUCCESS 0 PSPSERIALPDURRNID_RESPONSE_PSP_MEM_READ
        (memReadBytes mem addr cbXfer) uartRc

/-- Embedding of `pspStubPduProcessPspMmioXfer` (lines 858-895): transfer length must be
1, 2, 4 or 8 or the handler returns `ERR_INVALID_PARAMETER` without sending
anything.  Note the source responds with the PSP_MEM response tags
(`PSPSERIALPDURRNID_RESPONSE_PSP_MEM_WRITE` / `..._MEM_READ`, lines 879 and
886), not the PSP_MMIO ones. -/
def pspStubPduProcessPspMmioXfer (st : PSPSTUBSTATE) (mem : Nat → Nat)
    (payload : List Nat) (fWrite : Bool) (uartRc : Int) : PSPSTUBSTATE × Int :=
  let cbXfer := leAt 4 payload 8
  if payload.length < 12 ∨ (cbXfer ≠ 1 ∧ cbXfer ≠ 2 ∧ cbXfer ≠ 4 ∧ cbXfer ≠ 8) then
    (st, ERR_INVALID_PARAMETER)
  else
    let addr := leAt 8 payload 0
    if fWrite then
      let st1 := { st with memWrites := st.memWrites ++ [⟨addr, (payload.drop 12).take cbXfer⟩] }
      pspStubPduSend st1 INF_SUCCESS 0 PSPSERIALPDURRNID_RESPONSE_PSP_MEM_WRITE [] uartRc
    else
      pspStubPduSend st INF_SUCCESS 0 PSPSERIALPDURRNID_RESPONSE_PSP_MEM_READ
        (memReadBytes mem addr cbXfer) uartRc

/-- Embedding of `pspStubPduProcessPspSmnXfer` (lines 907-946): width-checked; maps the
SMN address, performs the access and unmaps; on mapping failure sends a
response carrying the mapping error code with an empty payload. -/
def pspStubPduProcessPspSmnXfer (st : PSPSTUBSTATE) (mem : Nat → Nat)
    (payload : List Nat) (fWrite : Bool) (uartRc : Int) : PSPSTUBSTATE × Int :=
  let cbXfer := leAt 4 payload 8
  if payload.length < 12 ∨ (cbXfer ≠ 1 ∧ cbXfer ≠ 2 ∧ cbXfer ≠ 4 ∧ cbXfer ≠ 8) then
    (st, ERR_INVALID_PARAMETER)
  else
    let enmResponse := if fWrite then PSPSERIALPDURRNID_RESPONSE_PSP_SMN_WRITE
                       else PSPSERIALPDURRNID_RESPONSE_PSP_SMN_READ
    let mr := pspStubSmnPhysMap st ((leAt 8 payload 0) % 4294967296)
    match mr.2.2 with
    | some pvMap =>
      let st1 := mr.1
      let st2 :=
        if fWrite then { st1 with memWrites := st1.memWrites ++ [⟨pvMap, (payload.drop 12).take cbXfer⟩] }
        else st1
      let respPayload := if fWrite then [] else memReadBytes mem pvMap cbXfer
      let sr := pspStubPduSend st2 INF_SUCCESS 0 enmResponse respPayload uartRc
      ((pspStubSmnUnmapByPtr sr.1 pvMap).1, sr.2)
    | none =>
      pspStubPduSend mr.1 mr.2.1 0 enmResponse [] uartRc

/-- Embedding of `pspStubPduProcessPspX86MemXfer` (lines 958-993): maps the x86 address
with memtype normal, bulk copy, unmap; on mapping failure sends a response
with the mapping error code and empty payload. -/
def pspStubPduProcessPspX86MemXfer (st : PSPSTUBSTATE) (mem : Nat → Nat)
    (payload : List Nat) (fWrite : Bool) (uartRc : Int) : PSPSTUBSTATE × Int :=
  if payload.length < 12 then (st, ERR_INVALID_PARAMETER)
  else
    let enmResponse := if fWrite then PSPSERIALPDURRNID_RESPONSE_PSP_X86_MEM_WRITE
                       else PSPSERIALPDURRNID_RESPONSE_PSP_X86_MEM_READ
    let cbXfer := leAt 4 payload 8
    let mr := pspStubX86PhysMap st (leAt 8 payload 0) false
    match mr.2.2 with
    | some pvMap =>
      let st1 := mr.1
      let st2 :=
        if fWrite then { st1 with memWrites := st1.memWrites ++ [⟨pvMap, (payload.drop 12).take cbXfer⟩] }
        else st1
      let respPayload := if fWrite then [] else memReadBytes mem pvMap cbXfer
      let sr := pspStubPduSend st2 INF_SUCCESS 0 enmResponse respPayload uartRc
      ((pspStubX86PhysUnmapByPtr sr.1 pvMap).1, sr.2)
    | none =>
      pspStubPduSend mr.1 mr.2.1 0 enmResponse [] uartRc

/-- Embedding of `pspStubPduProcessPspX86MmioXfer` (lines 1005-1044): width-checked;
note the source maps with `fMmio = false` (memtype normal, line 1020). -/
def pspStubPduProcessPspX86MmioXfer (st : PSPSTUBSTATE) (mem : Nat → Nat)
    (payload : List Nat) (fWrite : Bool) (uartRc : Int) : PSPSTUBSTATE × Int :=
  let cbXfer := leAt 4 payload 8
  if payload.length < 12 ∨ (cbXfer ≠ 1 ∧ cbXfer ≠ 2 ∧ cbXfer ≠ 4 ∧ cbXfer ≠ 8) then
    (st, ERR_INVALID_PARAMETER)
  else
    let enmResponse := if fWrite then PSPSERIALPDURRNID_RESPONSE_PSP_X86_MMIO_WRITE
                       else PSPSERIALPDURRNID_RESPONSE_PSP_X86_MMIO_READ
    let mr := pspStubX86PhysMap st (leAt 8 payload 0) false
    match mr.2.2 with
    | some pvMap =>
      let st1 := mr.1
      let st2 :=
        if fWrite then { st1 with memWrites := st1.memWrites ++ [⟨pvMap, (payload.drop 12).take cbXfer⟩] }
        else st1
      let respPayload := if fWrite then [] else memReadBytes mem pvMap cbXfer
      let sr := pspStubPduSend st2 INF_SUCCESS 0 enmResponse respPayload uartRc
      ((pspStubX86PhysUnmapByPtr sr.1 pvMap).1, sr.2)
    | none =>
      pspStubPduSend mr.1 mr.2.1 0 enmResponse [] uartRc

/-! ## Dispatch (`pspStubPduProcess`) and the connected loop -/

/-- Embedding of `pspStubPduProcess` (lines 1054-1096): dispatch on the request tag at
header offset 12; the payload starts at byte 24 with length given by the
header length field.  An unknown tag leaves `rc = INF_SUCCESS`. -/
def pspStubPduProcess (st : PSPSTUBSTATE) (mem : Nat → Nat) (pduBytes : List Nat)
    (uartRc : Int) : PSPSTUBSTATE × Int :=
  let payload := (pduBytes.drop 24).take (leAt 4 pduBytes 4)
  let tag := leAt 2 pduBytes 12
  if tag = PSPSERIALPDURRNID_REQUEST_PSP_MEM_READ then
    pspStubPduProcessPspMemXfer st mem payload false uartRc
  else if tag = PSPSERIALPDURRNID_REQUEST_PSP_MEM_WRITE then
    pspStubPduProcessPspMemXfer st mem payload true uartRc
  else if tag = PSPSERIALPDURRNID_REQUEST_PSP_MMIO_READ then
    pspStubPduProcessPspMmioXfer st mem payload false uartRc
  else if tag = PSPSERIALPDURRNID_REQUEST_PSP_MMIO_WRITE then
    pspStubPduProcessPspMmioXfer st mem payload true uartRc
  else if tag = PSPSERIALPDURRNID_REQUEST_PSP_SMN_READ then
    pspStubPduProcessPspSmnXfer st mem payload false uartRc
  else if tag = PSPSERIALPDURRNID_REQUEST_PSP_SMN_WRITE then
    pspStubPduProcessPspSmnXfer st mem payload true uartRc
  else if tag = PSPSERIALPDURRNID_REQUEST_PSP_X86_MEM_READ then
    pspStubPduProcessPspX86MemXfer st mem payload false uartRc
  else if tag = PSPSERIALPDURRNID_REQUEST_PSP_X86_MEM_WRITE then
    pspStubPduProcessPspX86MemXfer st mem payload true uartRc
  else if tag = PSPSERIALPDURRNID_REQUEST_PSP_X86_MMIO_READ then
    pspStubPduProcessPspX86MmioXfer st mem payload false uartRc
  else if tag = PSPSERIALPDURRNID_REQUEST_PSP_X86_MMIO_WRITE then
    pspStubPduProcessPspX86MmioXfer st mem payload true uartRc
  else (st, INF_SUCCESS)

/-- Outcome of one iteration of the connected loop as seen by the code: the
status and completed PDU of the `pspStubPduRecv` call, and the UART outcome
for any response the processing sends. -/
structure ConnIter where
  recvRc : Int
  pduBytes : List Nat
  uartRc : Int

/-- The connected-phase dispatch loop of `pspStubMainloop` (lines 1133-1140):
`for (;;) { rc = pspStubPduRecv(...); if (!rc) rc = pspStubPduProcess(...); }`.
The `for (;;)` has no exit condition and no `break`, so the loop advances to
the next iteration regardless of `rc`; the model runs one iteration per
oracle entry and returns the final state with the last iteration's status. -/
def pspStubMainloopConnected (mem : Nat → Nat) :
    PSPSTUBSTATE → Int → List ConnIter → PSPSTUBSTATE × Int
  | st, rc, [] => (st, rc)
  | st, _, it :: rest =>
    let r := if it.recvRc = 0 then pspStubPduProcess st mem it.pduBytes it.uartRc
             else (st, it.recvRc)
    pspStubMainloopConnected mem r.1 r.2 rest

/-! ## Boot-time state and send sequences -/

/-- The stub state as `main` initializes it (lines 1169-1182): one CCD, not
connected, counters zeroed, next expected receive counter 1, parser reset,
all fifteen x86 slots at the sentinel base with zero memtype and refcount,
all SMN slots and control registers zeroed. -/
def pspStubInitState : PSPSTUBSTATE :=
  { cCcds := 1
    fConnected := false
    cBeaconsSent := 0
    cPdusSent := 0
    cPduRecvNext := 1
    enmPduRecvState := .HDR
    cbPduRecvLeft := 24
    offPduRecv := 0
    abPdu := []
    aX86MapSlots := List.replicate 15 ⟨NIL_X86PADDR, 0, 0⟩
    aSmnMapSlots := List.replicate 32 ⟨0, 0⟩
    smnCtrlRegs := List.replicate 16 0
    regWrites := []
    sendLog := []
    memWrites := []
    msNow := 0 }

/-- Arguments of one `pspStubPduSend` call, for reasoning about sequences of
sent PDUs. -/
structure SendReq where
  rcReq : Int
  idCcd : Nat
  enmRrnId : Nat
  payload : List Nat
  uartRc : Int

/-- A sequence of `pspStubPduSend` calls. -/
def pspStubSendSeq : PSPSTUBSTATE → List SendReq → PSPSTUBSTATE
  | st, [] => st
  | st, r :: rs =>
    pspStubSendSeq (pspStubPduSend st r.rcReq r.idCcd r.enmRrnId r.payload r.uartRc).1 rs

/-! Section: concrete inputs used by counterexamples and witnesses -/

/-- A PSP_MMIO_READ request PDU with transfer length 3 (the spec's scenario
4: address `0x03010424`, `len = 3`), as held in the receive buffer. -/
def cexMmioBadReqPdu : List Nat :=
  leBytes 4 PSP_SERIAL_EXT_2_PSP_PDU_START_MAGIC ++
  pduHdrFieldBytes 12 1 PSPSERIALPDURRNID_REQUEST_PSP_MMIO_READ 0 0 0 ++
  (leBytes 8 0x03010424 ++ leBytes 4 3)

/-- A well-formed PSP_MMIO_READ request PDU with transfer length 4. -/
def cexMmioGoodReqPdu : List Nat :=
  leBytes 4 PSP_SERIAL_EXT_2_PSP_PDU_START_MAGIC ++
  pduHdrFieldBytes 12 1 PSPSERIALPDURRNID_REQUEST_PSP_MMIO_READ 0 0 0 ++
  (leBytes 8 0x03010424 ++ leBytes 4 4)

/-- A well-formed PSP_MEM_READ request PDU (address `0x50000`, length 4). -/
def cexMemReadReqPdu : List Nat :=
  leBytes 4 PSP_SERIAL_EXT_2_PSP_PDU_START_MAGIC ++
  pduHdrFieldBytes 12 2 PSPSERIALPDURRNID_REQUEST_PSP_MEM_READ 0 0 0 ++
  (leBytes 8 0x50000 ++ leBytes 4 4)

/-- Header bytes of a valid CONNECT request (counter 1, no payload). -/
def cexConnectHdrBytes : List Nat :=
  leBytes 4 PSP_SERIAL_EXT_2_PSP_PDU_START_MAGIC ++
  pduHdrFieldBytes 0 1 PSPSERIALPDURRNID_REQUEST_CONNECT 0 0 0

/-- Footer bytes completing `cexConnectHdrBytes` into a valid PDU. -/
def cexConnectFooterBytes : List Nat :=
  leBytes 4 (pduChkSum (pduHdrFieldBytes 0 1 PSPSERIALPDURRNID_REQUEST_CONNECT 0 0 0)) ++
  leBytes 4 PSP_SERIAL_EXT_2_PSP_PDU_END_MAGIC

/-- The complete valid CONNECT request PDU. -/
def cexConnectPduBytes : List Nat := cexConnectHdrBytes ++ cexConnectFooterBytes

/-- Two UART polls delivering the CONNECT PDU header and footer, with the
millisecond clock reading 600 throughout. -/
def cexRecvPolls : List RecvPoll :=
  [⟨24, cexConnectHdrBytes, 0, 600⟩, ⟨8, cexConnectFooterBytes, 0, 600⟩]

/-- A parser state holding a completed all-zero header (bad start magic). -/
def cexBadHdrState : PSPSTUBSTATE :=
  { pspStubInitState with abPdu := List.replicate 24 0 }

/-- A state whose fifteen x86 slots hold distinct live 64 MiB bases. -/
def cexFullX86State : PSPSTUBSTATE :=
  { pspStubInitState with
    aX86MapSlots := (List.range 15).map (fun i => ⟨i * 67108864, 4, 1⟩) }

/-- The spec's header-rejection condition (section 4.D), stated from the
spec's words for comparison with `pspStubPduHdrValidate`: wrong start magic,
oversized payload, tag outside the request range, counter mismatch, or unit
id out of range. -/
def specHdrReject (st : PSPSTUBSTATE) (buf : List Nat) : Prop :=
  leAt 4 buf 0 ≠ PSP_SERIAL_EXT_2_PSP_PDU_START_MAGIC ∨
  leAt 4 buf 4 > 4096 - 24 - 8 ∨
  leAt 2 buf 12 < PSPSERIALPDURRNID_REQUEST_FIRST ∨
  leAt 2 buf 12 ≥ PSPSERIALPDURRNID_REQUEST_INVALID_FIRST ∨
  leAt 4 buf 8 ≠ st.cPduRecvNext ∨
  leAt 2 buf 14 ≥ st.cCcds

instance (st : PSPSTUBSTATE) (buf : List Nat) : Decidable (specHdrReject st buf) := by
  unfold specHdrReject
  infer_instance

/-! Section: helper lemmas -/

/-- Length of a little-endian serialization. -/
theorem leBytes_length (n v : Nat) : (leBytes n v).length = n := by
  induction n generalizing v with
  | zero => rfl
  | succ m ih => simp [leBytes, ih]

/-- Round trip of little-endian serialization. -/
theorem leVal_leBytes (n v : Nat) : leVal (leBytes n v) = v % 256 ^ n := by
  induction n generalizing v with
  | zero => simp [leBytes, leVal, Nat.mod_one]
  | succ m ih =>
    simp only [leBytes, leVal, ih]
    rw [pow_succ, mul_comm (256 ^ m) 256, Nat.mod_mul]

/-- The running 32-bit checksum is always below 2^32. -/
theorem byteSum_lt (bs : List Nat) : byteSum bs < 4294967296 := by
  unfold byteSum
  have h : ∀ l : List Nat, ∀ acc : Nat, acc < 4294967296 → l.foldl uadd32 acc < 4294967296 := by
    intro l
    induction l with
    | nil => intro acc hacc; simpa using hacc
    | cons b rest ih =>
      intro acc hacc
      simp only [List.foldl_cons]
      exact ih _ (by unfold uadd32; omega)
  exact h bs 0 (by norm_num)

/-- The two's-complement footer checksum cancels the byte sum modulo 2^32. -/
theorem byteSum_chk (bs : List Nat) : (byteSum bs + pduChkSum bs) % 4294967296 = 0 := by
  have h := byteSum_lt bs
  unfold pduChkSum
  omega

/-- The checksummed header field bytes are 20 bytes long. -/
theorem pduHdrFieldBytes_length (cb cP rrn id : Nat) (rc : Int) (ts : Nat) :
    (pduHdrFieldBytes cb cP rrn id rc ts).length = 20 := by
  simp [pduHdrFieldBytes, i32Bytes, leBytes_length]

/-- A PDU assembled with the send-side checksum passes the receive-side
validator. -/
theorem pduValidate_roundtrip (cP rrn idCcd : Nat) (rcReq : Int) (ts : Nat) (payload : List Nat)
    (hlen : payload.length < 4294967296) :
    pspStubPduValidate
      (leBytes 4 PSP_SERIAL_EXT_2_PSP_PDU_START_MAGIC ++
        (pduHdrFieldBytes payload.length cP rrn idCcd rcReq ts ++
          (payload ++
            (leBytes 4 (pduChkSum (pduHdrFieldBytes payload.length cP rrn idCcd rcReq ts ++ payload)) ++
              leBytes 4 PSP_SERIAL_EXT_2_PSP_PDU_END_MAGIC)))) = 0 := by
  have hm4 : (leBytes 4 PSP_SERIAL_EXT_2_PSP_PDU_START_MAGIC).length = 4 := leBytes_length _ _
  have hfb20 : (pduHdrFieldBytes payload.length cP rrn idCcd rcReq ts).length = 20 :=
    pduHdrFieldBytes_length _ _ _ _ _ _
  have hchk : pduChkSum (pduHdrFieldBytes payload.length cP rrn idCcd rcReq ts ++ payload)
      < 4294967296 := Nat.mod_lt _ (by norm_num)
  set fb := pduHdrFieldBytes payload.length cP rrn idCcd rcReq ts with hfbdef
  set c := pduChkSum (fb ++ payload) with hcdef
  set buf := leBytes 4 PSP_SERIAL_EXT_2_PSP_PDU_START_MAGIC ++
    (fb ++ (payload ++ (leBytes 4 c ++ leBytes 4 PSP_SERIAL_EXT_2_PSP_PDU_END_MAGIC))) with hbufdef
  have e1 : buf.drop 4 =
      fb ++ (payload ++ (leBytes 4 c ++ leBytes 4 PSP_SERIAL_EXT_2_PSP_PDU_END_MAGIC)) :=
    List.drop_left' hm4
  have e2 : leAt 4 buf 4 = payload.length := by
    unfold leAt
    rw [e1, hfbdef]
    unfold pduHdrFieldBytes
    simp only [List.append_assoc]
    rw [List.take_left' (leBytes_length 4 payload.length)]
    rw [leVal_leBytes]
    norm_num
    omega
  have e3 : (buf.drop 4).take 20 = fb := by rw [e1, List.take_left' hfb20]
  have e4 : buf.drop 24 =
      payload ++ (leBytes 4 c ++ leBytes 4 PSP_SERIAL_EXT_2_PSP_PDU_END_MAGIC) := by
    have h : buf.drop 24 = List.drop 20 (List.drop 4 buf) := by
      rw [List.drop_drop]
    rw [h, e1, List.drop_left' hfb20]
  have e5 : (buf.drop 24).take payload.length = payload := by
    rw [e4, List.take_left]
  have e6 : leAt 4 buf (24 + payload.length) = c := by
    unfold leAt
    have h : buf.drop (24 + payload.length) = List.drop payload.length (List.drop 24 buf) := by
      rw [List.drop_drop]
    rw [h, e4, List.drop_left]
    rw [List.take_left' (leBytes_length 4 c), leVal_leBytes]
    norm_num
    omega
  have e7 : leAt 4 buf (28 + payload.length) = PSP_SERIAL_EXT_2_PSP_PDU_END_MAGIC := by
    unfold leAt
    have h28 : buf.drop (28 + payload.length) =
        List.drop 4 (List.drop (24 + payload.length) buf) := by
      rw [List.drop_drop]
      congr 1
      omega
    have h2 : buf.drop (24 + payload.length) = List.drop payload.length (List.drop 24 buf) := by
      rw [List.drop_drop]
    rw [h28, h2, e4, List.drop_left]
    rw [List.drop_left' (leBytes_length 4 c)]
    rw [List.take_of_length_le (le_of_eq (leBytes_length 4 _))]
    rw [leVal_leBytes]
    norm_num [PSP_SERIAL_EXT_2_PSP_PDU_END_MAGIC]
  unfold pspStubPduValidate
  rw [e2]
  simp only [e3, e5, e6, e7]
  have hsum := byteSum_chk (fb ++ payload)
  rw [← hcdef] at hsum
  simp [hsum]

/-- First-match probing fails when no slot satisfies the match predicate. -/
theorem x86FindSlot_eq_none (base mt : Nat) (slots : List PSPX86MAPPING)
    (h : ∀ s ∈ slots, x86SlotMatch base mt s = false) :
    x86FindSlot base mt slots = none := by
  induction slots with
  | nil => rfl
  | cons s rest ih =>
    unfold x86FindSlot
    rw [h s (by simp)]
    simp only [Bool.false_eq_true, if_false]
    rw [ih (fun s hs => h s (by simp [hs]))]
    rfl

/-- A 64 MiB-aligned base is never the all-ones sentinel. -/
theorem x86Base_ne_nil (a : Nat) : a - a % 67108864 ≠ NIL_X86PADDR := by
  unfold NIL_X86PADDR
  omega

/-- Mapping any x86 address into the freshly initialized slot table takes
slot 0, programs its registers and returns the window-0 pointer. -/
theorem x86Map_first (a : Nat) (f : Bool) :
    pspStubX86PhysMap pspStubInitState a f =
      ({ pspStubInitState with
          aX86MapSlots :=
            ⟨a - a % 67108864, if f then 6 else 4, 1⟩ :: List.replicate 14 ⟨NIL_X86PADDR, 0, 0⟩,
          regWrites := x86SlotProgramWrites 0 (a - a % 67108864) (if f then 6 else 4) },
       INF_SUCCESS, some (0x04000000 + a % 67108864)) := by
  cases f <;>
    · unfold pspStubX86PhysMap pspStubInitState
      simp [x86FindSlot, x86SlotMatch, NIL_X86PADDR]
      omega

/-- Mapping the same address again reuses slot 0, programs nothing, and
returns the same pointer. -/
theorem x86Map_second (a : Nat) (f : Bool) :
    pspStubX86PhysMap (pspStubX86PhysMap pspStubInitState a f).1 a f =
      ({ pspStubInitState with
          aX86MapSlots :=
            ⟨a - a % 67108864, if f then 6 else 4, 2⟩ :: List.replicate 14 ⟨NIL_X86PADDR, 0, 0⟩,
          regWrites := x86SlotProgramWrites 0 (a - a % 67108864) (if f then 6 else 4) },
       INF_SUCCESS, some (0x04000000 + a % 67108864)) := by
  rw [x86Map_first]
  have hnil := x86Base_ne_nil a
  cases f <;>
    · unfold pspStubX86PhysMap
      simp [x86FindSlot, x86SlotMatch, hnil]
      omega

/-- Unmapping a window-0 pointer decrements slot 0's refcount, clearing the
slot and its registers when the count reaches zero. -/
theorem x86Unmap_slot0 (st : PSPSTUBSTATE) (r : Nat) (s : PSPX86MAPPING)
    (hr : r < 67108864) (hs : st.aX86MapSlots.headD ⟨NIL_X86PADDR, 0, 0⟩ = s) :
    pspStubX86PhysUnmapByPtr st (0x04000000 + r) =
      (if s.cRefs > 0 then
        if s.cRefs - 1 = 0 then
          ({ st with
             aX86MapSlots := st.aX86MapSlots.set 0 ⟨NIL_X86PADDR, 0, 0⟩,
             regWrites := st.regWrites ++ x86SlotClearWrites 0 }, INF_SUCCESS)
        else
          ({ st with aX86MapSlots := st.aX86MapSlots.set 0 { s with cRefs := s.cRefs - 1 } },
           INF_SUCCESS)
      else (st, ERR_INVALID_PARAMETER)) := by
  have h1 : (67108864 + r) % 4294967296 = 67108864 + r := by omega
  have h2 : (67108864 + r) % 67108864 = r := by omega
  have h3 : 67108864 + r - r = 67108864 := by omega
  have h4 : (67108864 + 4294967296 - 67108864) % 4294967296 = 0 := by norm_num
  unfold pspStubX86PhysUnmapByPtr
  simp only [h1, h2, h3, h4, Nat.zero_div, Nat.zero_mod, List.drop_zero, hs]
  norm_num

/-- Counters stamped by a sequence of sends are consecutive modulo 2^32,
continuing from the state's `cPdusSent`. -/
theorem pspStubSendSeq_counters (rs : List SendReq) :
    ∀ st : PSPSTUBSTATE,
      ((pspStubSendSeq st rs).sendLog).map (fun p => p.cPdus) =
        st.sendLog.map (fun p => p.cPdus) ++
          (List.range rs.length).map (fun k => (st.cPdusSent + k + 1) % 4294967296) := by
  induction rs with
  | nil => intro st; simp [pspStubSendSeq]
  | cons r rest ih =>
    intro st
    unfold pspStubSendSeq
    rw [ih]
    simp only [pspStubPduSend, uadd32, List.length_cons, List.range_succ_eq_map,
      List.map_cons, List.map_map, List.map_append]
    simp only [List.append_assoc, List.cons_append, List.nil_append]
    congr 1
    congr 1
    apply List.map_congr_left
    intro k _
    simp only [Function.comp]
    omega

/-! Section: claim theorems -/

/-- Claim C1, counterexample: a PSP_MMIO_READ request with transfer length 3
does not produce a response PDU.  The handler returns the nonzero status
`ERR_INVALID_PARAMETER` to the dispatch loop and the send log stays empty:
no response carrying the failure code is emitted, contrary to the claim that
the stub still sends one response with `rc_req = INVALID_PARAMETER`. -/
theorem claim_C1_counterexample :
    (pspStubPduProcess pspStubInitState (fun _ => 0) cexMmioBadReqPdu 0).2 =
      ERR_INVALID_PARAMETER ∧
    (pspStubPduProcess pspStubInitState (fun _ => 0) cexMmioBadReqPdu 0).1.sendLog = [] ∧
    ERR_INVALID_PARAMETER ≠ INF_SUCCESS := by
  decide

/-- Claim C1, amended: when a local-MMIO request fails its per-request
validation (payload shorter than the request header, or transfer length not
in 1, 2, 4, 8), the stub sends no response at all — the handler returns
`ERR_INVALID_PARAMETER` with the state unchanged; a response PDU (exactly
one) is sent only when validation passes. -/
theorem claim_C1 (st : PSPSTUBSTATE) (mem : Nat → Nat) (payload : List Nat)
    (fWrite : Bool) (uartRc : Int) :
    ((payload.length < 12 ∨
        (leAt 4 payload 8 ≠ 1 ∧ leAt 4 payload 8 ≠ 2 ∧ leAt 4 payload 8 ≠ 4 ∧
          leAt 4 payload 8 ≠ 8)) →
      pspStubPduProcessPspMmioXfer st mem payload fWrite uartRc = (st, ERR_INVALID_PARAMETER)) ∧
    (¬ (payload.length < 12 ∨
        (leAt 4 payload 8 ≠ 1 ∧ leAt 4 payload 8 ≠ 2 ∧ leAt 4 payload 8 ≠ 4 ∧
          leAt 4 payload 8 ≠ 8)) →
      ((pspStubPduProcessPspMmioXfer st mem payload fWrite uartRc).1.sendLog).length =
        st.sendLog.length + 1) := by
  constructor
  · intro hbad
    unfold pspStubPduProcessPspMmioXfer
    simp only [if_pos hbad]
  · intro hok
    unfold pspStubPduProcessPspMmioXfer
    rw [if_neg hok]
    cases fWrite <;> simp [pspStubPduSend]

/-- Claim C1, witness: the bad-width request from the counterexample
satisfies the validation-failure hypothesis. -/
theorem claim_C1_witness :
    pspStubPduProcessPspMmioXfer pspStubInitState (fun _ => 0)
      (leBytes 8 0x03010424 ++ leBytes 4 3) false 0 =
      (pspStubInitState, ERR_INVALID_PARAMETER) :=
  (claim_C1 pspStubInitState (fun _ => 0) (leBytes 8 0x03010424 ++ leBytes 4 3) false 0).1
    (by decide)

/-- Claim C2: a successfully processed PSP_MMIO_READ request is answered
with unit id 0, but with the PSP_MEM read response tag rather than the
PSP_MMIO one (`pspStubPduProcessPspMmioXfer` uses
`PSPSERIALPDURRNID_RESPONSE_PSP_MEM_READ`, main.c line 886), so the claim's
matching-tag part fails on the code. -/
theorem claim_C2 :
    ((pspStubPduProcess pspStubInitState (fun _ => 0) cexMmioGoodReqPdu 0).1.sendLog).map
      (fun p => p.enmRrnId) = [PSPSERIALPDURRNID_RESPONSE_PSP_MEM_READ] ∧
    ((pspStubPduProcess pspStubInitState (fun _ => 0) cexMmioGoodReqPdu 0).1.sendLog).map
      (fun p => p.idCcd) = [0] ∧
    PSPSERIALPDURRNID_RESPONSE_PSP_MEM_READ ≠ PSPSERIALPDURRNID_RESPONSE_PSP_MMIO_READ := by
  decide

/-- Claim C3: on a run where a complete valid CONNECT PDU arrives with the
clock at 600 ms (start time 600 ms, bound 1000 ms, so the elapsed time 0 is
below the bound), `pspStubPduRecv` still returns `INF_TRY_AGAIN`, because
its final deadline check adds the start time to the current time instead of
subtracting (`tsStartMs + pspStubGetMillies(pThis) >= cMillies`, main.c line
732).  The claim that try-again is returned exactly when the bound elapses
without a complete PDU fails on the code. -/
theorem claim_C3 :
    (pspStubPduRecv pspStubInitState cexRecvPolls 600 600 1000).2.1 = INF_TRY_AGAIN ∧
    (pspStubPduRecv pspStubInitState cexRecvPolls 600 600 1000).2.2 =
      some cexConnectPduBytes ∧
    usub32 600 600 < 1000 ∧
    INF_TRY_AGAIN ≠ INF_SUCCESS := by
  decide

/-- Claim C4: the connected dispatch loop is `for (;;)` with no exit (main.c
lines 1133-1140), so a fatal error does not terminate it.  Concretely: the
first iteration's processing fails with `ERR_INVALID_PARAMETER` (bad MMIO
width), yet the loop runs the next iteration and serves the following
request, emitting a response — contradicting the claim that an error
terminates the loop after which the stub only spins. -/
theorem claim_C4 :
    (pspStubPduProcess pspStubInitState (fun _ => 0) cexMmioBadReqPdu 0).2 =
      ERR_INVALID_PARAMETER ∧
    ((pspStubMainloopConnected (fun _ => 0) pspStubInitState INF_SUCCESS
        [⟨0, cexMmioBadReqPdu, 0⟩, ⟨0, cexMemReadReqPdu, 0⟩]).1.sendLog).map
      (fun p => p.enmRrnId) = [PSPSERIALPDURRNID_RESPONSE_PSP_MEM_READ] ∧
    ERR_INVALID_PARAMETER ≠ INF_SUCCESS := by
  decide

/-- Claim C5: counters of sent PDUs are consecutive (1, 2, 3, … modulo the
32-bit width) — from boot they are exactly `k + 1` for the `k`-th send — and
`pspStubCheckConnection` resets `cPdusSent` to zero immediately before
sending the CONNECT response, so that response carries counter 1 and the
stream restarts from it. -/
theorem claim_C5 (st : PSPSTUBSTATE) (bs : List Nat) (uartRc : Int)
    (hconn : leAt 2 bs 12 = PSPSERIALPDURRNID_REQUEST_CONNECT) :
    (∀ (st' : PSPSTUBSTATE) (rs : List SendReq),
      ((pspStubSendSeq st' rs).sendLog).map (fun p => p.cPdus) =
        st'.sendLog.map (fun p => p.cPdus) ++
          (List.range rs.length).map (fun k => (st'.cPdusSent + k + 1) % 4294967296)) ∧
    (∀ rs : List SendReq,
      ((pspStubSendSeq pspStubInitState rs).sendLog).map (fun p => p.cPdus) =
        (List.range rs.length).map (fun k => (k + 1) % 4294967296)) ∧
    (pspStubCheckConnection st INF_SUCCESS (some bs) uartRc).1.cPdusSent = 1 ∧
    ((pspStubCheckConnection st INF_SUCCESS (some bs) uartRc).1.sendLog).map
      (fun p => p.cPdus) = st.sendLog.map (fun p => p.cPdus) ++ [1] := by
  have hconnpair :
      (pspStubCheckConnection st INF_SUCCESS (some bs) uartRc).1.cPdusSent = 1 ∧
      ((pspStubCheckConnection st INF_SUCCESS (some bs) uartRc).1.sendLog).map
        (fun p => p.cPdus) = st.sendLog.map (fun p => p.cPdus) ++ [1] := by
    unfold pspStubCheckConnection
    simp [hconn, pspStubPduSend, uadd32]
    split_ifs <;> simp
  refine ⟨fun st' rs => pspStubSendSeq_counters rs st', ?_, hconnpair.1, hconnpair.2⟩
  intro rs
  rw [pspStubSendSeq_counters rs pspStubInitState]
  simp [pspStubInitState]

/-- Claim C5, witness: on receipt of the concrete CONNECT request, the
counter of sent PDUs is reset so the connect response is numbered 1. -/
theorem claim_C5_witness :
    (pspStubCheckConnection pspStubInitState INF_SUCCESS (some cexConnectPduBytes) 0).1.cPdusSent
      = 1 :=
  (claim_C5 pspStubInitState cexConnectPduBytes 0 (by decide)).2.2.1

/-- Claim C6: header validation accepts exactly when none of the five
rejection conditions of the spec holds (wrong start magic, payload length
over 4 KiB minus header and footer, tag outside the request range, counter
mismatch, unit id at or above `cCcds`); on rejection the parser resets to
the header state with no PDU delivered and `INF_SUCCESS` returned (no
response is emitted — the advance step never sends), the reset preserving
`cPduRecvNext` and the send log; and `cPduRecvNext` changes only when a
completed footer passes full PDU validation. -/
theorem claim_C6 (st : PSPSTUBSTATE) (hhdr : st.enmPduRecvState = .HDR) :
    (pspStubPduHdrValidate st st.abPdu = 0 ↔ ¬ specHdrReject st st.abPdu) ∧
    (specHdrReject st st.abPdu →
      pspStubPduRecvAdvance st = (pspStubPduRecvReset st, INF_SUCCESS, none)) ∧
    (pspStubPduRecvReset st).cPduRecvNext = st.cPduRecvNext ∧
    (pspStubPduRecvReset st).sendLog = st.sendLog ∧
    (pspStubPduRecvReset st).enmPduRecvState = .HDR ∧
    (∀ st2 : PSPSTUBSTATE, (pspStubPduRecvAdvance st2).1.cPduRecvNext ≠ st2.cPduRecvNext →
      st2.enmPduRecvState = .FOOTER ∧ pspStubPduValidate st2.abPdu = 0) := by
  have hiff : pspStubPduHdrValidate st st.abPdu = 0 ↔ ¬ specHdrReject st st.abPdu := by
    unfold pspStubPduHdrValidate specHdrReject
    split_ifs with h1 h2 h3 h4 h5 <;> simp_all
    omega
  refine ⟨hiff, ?_, rfl, rfl, rfl, ?_⟩
  · intro hbad
    have hne : ¬ pspStubPduHdrValidate st st.abPdu = 0 := by
      rw [hiff]; simp [hbad]
    unfold pspStubPduRecvAdvance
    rw [hhdr]
    simp only [if_neg hne]
  · intro st2 hchg
    cases h2 : st2.enmPduRecvState with
    | INVALID =>
      exfalso; apply hchg
      unfold pspStubPduRecvAdvance; rw [h2]
    | HDR =>
      exfalso; apply hchg
      unfold pspStubPduRecvAdvance; rw [h2]
      split_ifs <;> simp [pspStubPduRecvReset]
    | PAYLOAD =>
      exfalso; apply hchg
      unfold pspStubPduRecvAdvance; rw [h2]
    | FOOTER =>
      by_cases hv : pspStubPduValidate st2.abPdu = 0
      · exact ⟨rfl, hv⟩
      · exfalso; apply hchg
        unfold pspStubPduRecvAdvance; rw [h2]
        simp [hv, pspStubPduRecvReset]

/-- Claim C6, witness: a completed all-zero header (bad start magic) is
rejected and the parser resets with no PDU handed back. -/
theorem claim_C6_witness :
    pspStubPduRecvAdvance cexBadHdrState =
      (pspStubPduRecvReset cexBadHdrState, INF_SUCCESS, none) :=
  (claim_C6 cexBadHdrState rfl).2.1 (by decide)

/-- Claim C7: mapping the same x86 address with the same memory type twice
(starting from the initialized slot table) succeeds both times with the same
local pointer, bumps the slot's refcount to 1 and then 2, programs the
slot-control registers exactly once (on the first, from-sentinel call — the
second call writes no registers), and after two matching unmaps the slot is
back to the sentinel base with zero memtype and zero refcount, the clearing
stores being issued on the second unmap. -/
theorem claim_C7 (a : Nat) (f : Bool) :
    (pspStubX86PhysMap pspStubInitState a f).2.1 = INF_SUCCESS ∧
    (pspStubX86PhysMap pspStubInitState a f).2.2 = some (0x04000000 + a % 67108864) ∧
    (pspStubX86PhysMap (pspStubX86PhysMap pspStubInitState a f).1 a f).2.1 = INF_SUCCESS ∧
    (pspStubX86PhysMap (pspStubX86PhysMap pspStubInitState a f).1 a f).2.2 =
      some (0x04000000 + a % 67108864) ∧
    (pspStubX86PhysMap pspStubInitState a f).1.aX86MapSlots.headD ⟨0, 0, 0⟩ =
      ⟨a - a % 67108864, if f then 6 else 4, 1⟩ ∧
    (pspStubX86PhysMap (pspStubX86PhysMap pspStubInitState a f).1 a f).1.aX86MapSlots.headD
      ⟨0, 0, 0⟩ = ⟨a - a % 67108864, if f then 6 else 4, 2⟩ ∧
    (pspStubX86PhysMap pspStubInitState a f).1.regWrites =
      x86SlotProgramWrites 0 (a - a % 67108864) (if f then 6 else 4) ∧
    (pspStubX86PhysMap (pspStubX86PhysMap pspStubInitState a f).1 a f).1.regWrites =
      (pspStubX86PhysMap pspStubInitState a f).1.regWrites ∧
    (pspStubX86PhysUnmapByPtr (pspStubX86PhysMap (pspStubX86PhysMap pspStubInitState a f).1 a f).1
        (0x04000000 + a % 67108864)).2 = INF_SUCCESS ∧
    (pspStubX86PhysUnmapByPtr (pspStubX86PhysMap (pspStubX86PhysMap pspStubInitState a f).1 a f).1
        (0x04000000 + a % 67108864)).1.aX86MapSlots.headD ⟨0, 0, 0⟩ =
      ⟨a - a % 67108864, if f then 6 else 4, 1⟩ ∧
    (pspStubX86PhysUnmapByPtr
        (pspStubX86PhysUnmapByPtr
          (pspStubX86PhysMap (pspStubX86PhysMap pspStubInitState a f).1 a f).1
          (0x04000000 + a % 67108864)).1
        (0x04000000 + a % 67108864)).2 = INF_SUCCESS ∧
    (pspStubX86PhysUnmapByPtr
        (pspStubX86PhysUnmapByPtr
          (pspStubX86PhysMap (pspStubX86PhysMap pspStubInitState a f).1 a f).1
          (0x04000000 + a % 67108864)).1
        (0x04000000 + a % 67108864)).1.aX86MapSlots.headD ⟨0, 0, 0⟩ =
      ⟨NIL_X86PADDR, 0, 0⟩ := by
  have hr : a % 67108864 < 67108864 := by omega
  rw [x86Map_second, x86Map_first]
  rw [x86Unmap_slot0 _ (a % 67108864) ⟨a - a % 67108864, if f then 6 else 4, 2⟩ hr (by simp)]
  norm_num
  rw [x86Unmap_slot0 _ (a % 67108864) ⟨a - a % 67108864, if f then 6 else 4, 1⟩ hr (by simp)]
  norm_num

/-- Claim C8: when every one of the fifteen x86 slots is live (positive
refcount) and none holds the requested 64 MiB base, a map call fails with
`ERR_INVALID_STATE` leaving the whole state — slots, registers and all —
unchanged. -/
theorem claim_C8 (st : PSPSTUBSTATE) (a : Nat) (f : Bool)
    (_hlen : st.aX86MapSlots.length = 15)
    (hlive : ∀ s ∈ st.aX86MapSlots, 0 < s.cRefs)
    (hdist : ∀ s ∈ st.aX86MapSlots, s.PhysX86AddrBase ≠ a - a % 67108864) :
    pspStubX86PhysMap st a f = (st, ERR_INVALID_STATE, none) := by
  have hnone : x86FindSlot (a - a % 67108864) (if f then 6 else 4) st.aX86MapSlots = none := by
    apply x86FindSlot_eq_none
    intro s hs
    unfold x86SlotMatch
    have h1 := hlive s hs
    have h2 := hdist s hs
    simp [h2]
    omega
  unfold pspStubX86PhysMap
  simp only [hnone]

/-- Claim C8, witness: with fifteen distinct live bases held, mapping a
sixteenth distinct base fails and alters nothing. -/
theorem claim_C8_witness :
    pspStubX86PhysMap cexFullX86State (15 * 67108864) false =
      (cexFullX86State, ERR_INVALID_STATE, none) :=
  claim_C8 cexFullX86State (15 * 67108864) false (by decide) (by decide) (by decide)

/-- Claim C9: the footer checksum of every sent PDU is
`(0xffffffff - sum) + 1` over the header field bytes and payload, making the
32-bit sum of checksummed bytes plus checksum vanish modulo 2^32, and a PDU
assembled with that checksum satisfies the matching identity checked by the
receive-side validator `pspStubPduValidate`. -/
theorem claim_C9 (st : PSPSTUBSTATE) (rcReq : Int) (idCcd enmRrnId : Nat)
    (payload : List Nat) (uartRc : Int) (hlen : payload.length < 4294967296) :
    (∀ bs : List Nat, (byteSum bs + pduChkSum bs) % 4294967296 = 0) ∧
    ((pspStubPduSend st rcReq idCcd enmRrnId payload uartRc).1.sendLog =
      st.sendLog ++
        [⟨rcReq, idCcd, enmRrnId, uadd32 st.cPdusSent 1, st.msNow, payload,
          pduChkSum (pduHdrFieldBytes payload.length (uadd32 st.cPdusSent 1) enmRrnId idCcd
            rcReq st.msNow ++ payload)⟩]) ∧
    pspStubPduValidate
      (leBytes 4 PSP_SERIAL_EXT_2_PSP_PDU_START_MAGIC ++
        (pduHdrFieldBytes payload.length (uadd32 st.cPdusSent 1) enmRrnId idCcd rcReq st.msNow ++
          (payload ++
            (leBytes 4 (pduChkSum (pduHdrFieldBytes payload.length (uadd32 st.cPdusSent 1)
                enmRrnId idCcd rcReq st.msNow ++ payload)) ++
              leBytes 4 PSP_SERIAL_EXT_2_PSP_PDU_END_MAGIC)))) = 0 := by
  refine ⟨byteSum_chk, ?_, ?_⟩
  · simp [pspStubPduSend]
  · exact pduValidate_roundtrip (uadd32 st.cPdusSent 1) enmRrnId idCcd rcReq st.msNow payload hlen

/-- Claim C9, witness: a two-byte payload PDU built from the boot state
passes the receive-side validator. -/
theorem claim_C9_witness :
    pspStubPduValidate
      (leBytes 4 PSP_SERIAL_EXT_2_PSP_PDU_START_MAGIC ++
        (pduHdrFieldBytes 2 1 12 0 0 0 ++
          ([222, 173] ++
            (leBytes 4 (pduChkSum (pduHdrFieldBytes 2 1 12 0 0 0 ++ [222, 173])) ++
              leBytes 4 PSP_SERIAL_EXT_2_PSP_PDU_END_MAGIC)))) = 0 :=
  (claim_C9 pspStubInitState 0 0 12 [222, 173] 0 (by decide)).2.2

/-- Claim C10: in the beacon phase, `pspStubCheckConnection` returns
`INF_SUCCESS` no matter what its receive or send outcomes were (so neither a
receive error nor a failed CONNECT-response send can terminate the beacon
loop by its return value), and a fully received PDU whose tag is not the
CONNECT request is consumed without sending anything and without touching
the state (in particular `fConnected` stays false and no response enters the
send log). -/
theorem claim_C10 (st : PSPSTUBSTATE) (recvRc : Int) (pdu : Option (List Nat)) (uartRc : Int) :
    (pspStubCheckConnection st recvRc pdu uartRc).2 = INF_SUCCESS ∧
    (∀ bs, recvRc = INF_SUCCESS → pdu = some bs →
      leAt 2 bs 12 ≠ PSPSERIALPDURRNID_REQUEST_CONNECT →
      pspStubCheckConnection st recvRc pdu uartRc = (st, INF_SUCCESS)) := by
  constructor
  · unfold pspStubCheckConnection
    split
    · cases pdu with
      | none => rfl
      | some bs =>
        simp only
        split
        · split <;> rfl
        · rfl
    · rfl
  · intro bs hrc hpdu htag
    subst hrc hpdu
    unfold pspStubCheckConnection
    simp [htag]

/-- Claim C10, witness: a valid PSP_MEM_READ PDU arriving during the beacon
phase is dropped without a response and without state change. -/
theorem claim_C10_witness :
    pspStubCheckConnection pspStubInitState INF_SUCCESS (some cexMemReadReqPdu) 0 =
      (pspStubInitState, INF_SUCCESS) :=
  (claim_C10 pspStubInitState INF_SUCCESS (some cexMemReadReqPdu) 0).2 cexMemReadReqPdu rfl rfl
    (by decide)
